import Mathlib

/-!
Verification of the Contract Compatibility Governance Engine.

The definitions below are a shallow embedding of the engine's Python
modules:

* `compare_versions`        — src/core_engine/versioning/comparator.py
* `evaluate_compatibility`  — src/core_engine/compatibility/policy_engine.py
* `compare_contract_fields` — src/core_engine/versioning/schema_diff.py
* `classify_impact`         — src/core_engine/governance/impact_classifier.py
* `evaluate_cicd_gate`      — src/core_engine/governance/cicd_gate.py
* `run_pipeline`            — the pure decision core of
                              src/pipelines/batch_pipeline.py (steps [6]-[12])

Comparison results, modes, decision labels, severities and gate statuses
are modelled as the exact strings the Python code uses; fallible code
returns `Except String`; Python `None` becomes `Option`.
-/

deriving instance DecidableEq for Except

namespace DataGov

/-- One value of a contract's `fields` mapping: a descriptor dict.  The
source reads its entries with `.get("type")` / `.get("required")`, which
yield `None` for a missing key, hence the `Option` types. -/
structure FieldDescr where
  type : Option String
  required : Option Bool
deriving DecidableEq

/-- A contract document: `{"version": ..., "fields": {...}}`.  The fields
dict is modelled as an association list from field name to descriptor. -/
structure Contract where
  version : String
  fields : List (String × FieldDescr)
deriving DecidableEq

/-- The drift record returned by `compare_contract_fields`
(schema_diff.py): four lists of field names. -/
structure FieldDrift where
  added_fields : List String
  removed_fields : List String
  type_changes : List String
  required_changes : List String
deriving DecidableEq

/-- The dict returned by `classify_impact` (impact_classifier.py). -/
structure ImpactResult where
  impact_tier : Nat
  drift_category : String
  requires_review : Bool
  blocks_deployment : Bool
deriving DecidableEq

/-- The dict returned by `evaluate_cicd_gate` (cicd_gate.py).  The field
`action_required` is initialised to `None` in the source, hence `Option`. -/
structure GateVerdict where
  gate_status : String
  requires_manual_approval : Bool
  blocks_pipeline : Bool
  action_required : Option String
deriving DecidableEq

/-! ### Version parsing (comparator.py)

The source parses a version string with `map(int, s.split("."))` unpacked
into exactly two variables; any exception becomes a single parse failure.
-/

/-- Python `s.split(".")` on the character list of `s`: the chunks between
occurrences of the dot (an empty string yields one empty chunk, a trailing
dot a trailing empty chunk). -/
def chunks : List Char → List (List Char)
  | [] => [[]]
  | c :: rest =>
    if c = '.' then [] :: chunks rest
    else
      match chunks rest with
      | [] => [[c]]
      | chunk :: more => (c :: chunk) :: more

/-- Numeric value of a digit list, most significant first. -/
def digitsVal (l : List Char) : Nat :=
  l.foldl (fun n c => 10 * n + (c.toNat - '0'.toNat)) 0

/-- The whitespace Python's `int()` strips from both ends of its
argument: the ASCII spaces U+0009–U+000D and U+0020 (CPython copies
ASCII characters verbatim and its byte-level parser skips exactly
those), plus the non-ASCII `Py_UNICODE_ISSPACE` characters U+0085,
U+00A0, U+1680, U+2000–U+200A, U+2028, U+2029, U+202F, U+205F and
U+3000, which CPython first maps to a plain space.  Notably U+001C–
U+001F are `str.isspace` whitespace but are not stripped by `int()`. -/
def pythonSpace (c : Char) : Bool :=
  let n := c.toNat
  (decide (9 ≤ n) && decide (n ≤ 13)) || decide (n = 32) ||
    decide (n = 0x85) || decide (n = 0xA0) || decide (n = 0x1680) ||
    (decide (0x2000 ≤ n) && decide (n ≤ 0x200A)) || decide (n = 0x2028) ||
    decide (n = 0x2029) || decide (n = 0x202F) || decide (n = 0x205F) ||
    decide (n = 0x3000)

/-- Both-ends whitespace strip, as `int()` performs before parsing. -/
def stripSpaces (l : List Char) : List Char :=
  ((l.dropWhile pythonSpace).reverse.dropWhile pythonSpace).reverse

/-- The tail of Python's base-10 `digitpart` grammar after its first
digit: every following character is a digit, or a grouping underscore
that sits between two digits (no leading, trailing or doubled
underscore). -/
def digitsGroupedRest : List Char → Bool
  | [] => true
  | '_' :: c :: rest => c.isDigit && digitsGroupedRest rest
  | c :: rest => c.isDigit && digitsGroupedRest rest

/-- Python's base-10 `digitpart`: `digit (["_"] digit)*`. -/
def digitsGrouped : List Char → Bool
  | [] => false
  | c :: rest => c.isDigit && digitsGroupedRest rest

/-- Python `int(component)` on one split component: strip surrounding
whitespace (`pythonSpace`), then an optional single sign, then a grouped
digit run whose value ignores the underscores.  The one fragment of
`int()` left out is its acceptance of non-ASCII decimal digits (Unicode
Nd, e.g. "١" or "５"): `Char.isDigit` covers "0"–"9" only, so on strings
of ASCII characters this is exactly `int()`, and theorems that
characterize the parse boundary carry an ASCII scope hypothesis. -/
def pythonInt (l : List Char) : Option Int :=
  match stripSpaces l with
  | '-' :: rest =>
    if digitsGrouped rest then
      some (-(digitsVal (rest.filter (fun c => c != '_')) : Int))
    else none
  | '+' :: rest =>
    if digitsGrouped rest then
      some (digitsVal (rest.filter (fun c => c != '_')))
    else none
  | t =>
    if digitsGrouped t then
      some (digitsVal (t.filter (fun c => c != '_')))
    else none

/-- An ASCII character — the scope on which `pythonInt` is exactly
Python's `int()`. -/
def asciiChar (c : Char) : Bool :=
  decide (c.toNat ≤ 127)

/-- The parse step of `compare_versions`: the string must split into
exactly two components and both must parse as Python ints, otherwise the
unpacking or `int()` raises and the source turns it into a parse error. -/
def parseVersion (s : String) : Option (Int × Int) :=
  match (chunks s.toList).map pythonInt with
  | [some major, some minor] => some (major, minor)
  | _ => none

/-- `compare_versions(contract_version, expected_version)` from
comparator.py: majors first, then minors; malformed input raises
`ValueError("Invalid version format. Expected MAJOR.MINOR")`. -/
def compare_versions (contract_version expected_version : String) :
    Except String String :=
  match parseVersion expected_version, parseVersion contract_version with
  | some (exp_major, exp_minor), some (con_major, con_minor) =>
    if con_major ≠ exp_major then
      if con_major > exp_major then .ok "MAJOR_UPGRADE"
      else .ok "MAJOR_DOWNGRADE"
    else if con_minor > exp_minor then .ok "MINOR_UPGRADE"
    else if con_minor < exp_minor then .ok "MINOR_DOWNGRADE"
    else .ok "EQUAL"
  | _, _ => .error "Invalid version format. Expected MAJOR.MINOR"

/-- `evaluate_compatibility(comparison_result, mode)` from
policy_engine.py.  Note: the strict and forward_minor branches test for
the token "EXACT_MATCH", while `compare_versions` emits "EQUAL" for equal
versions. -/
def evaluate_compatibility (comparison_result mode : String) :
    Except String Bool :=
  if mode = "strict" then
    .ok (comparison_result == "EXACT_MATCH")
  else if mode = "forward_minor" then
    .ok (comparison_result == "EXACT_MATCH" || comparison_result == "MINOR_UPGRADE")
  else if mode = "override" then
    .ok true
  else
    .error ("Unknown compatibility mode: " ++ mode)

/-! ### Schema drift detection (schema_diff.py) -/

/-- The key set of a fields dict (Python dict keys are unique; `dedup`
imposes that on the association list). -/
def contractKeys (fs : List (String × FieldDescr)) : List String :=
  (fs.map Prod.fst).dedup

/-- `fields[field].get("type")` for a field known to be present (missing
field yields `none`, which in the source cannot happen on the key-set
intersection). -/
def fieldType (fs : List (String × FieldDescr)) (k : String) : Option String :=
  match fs.find? (fun p => p.1 == k) with
  | some p => p.2.type
  | none => none

/-- `fields[field].get("required")`, as `fieldType`. -/
def fieldRequired (fs : List (String × FieldDescr)) (k : String) : Option Bool :=
  match fs.find? (fun p => p.1 == k) with
  | some p => p.2.required
  | none => none

/-- `compare_contract_fields(expected_contract, actual_contract)` from
schema_diff.py: set differences on the key sets, then per-field `type` and
`required` comparison over the intersection. -/
def compare_contract_fields (expected_contract actual_contract : Contract) :
    FieldDrift :=
  let expected_fields := expected_contract.fields
  let actual_fields := actual_contract.fields
  let expected_set := contractKeys expected_fields
  let actual_set := contractKeys actual_fields
  { added_fields := actual_set.filter (fun k => !(expected_set.contains k))
    removed_fields := expected_set.filter (fun k => !(actual_set.contains k))
    type_changes :=
      (expected_set.filter (fun k => actual_set.contains k)).filter
        (fun k => fieldType expected_fields k != fieldType actual_fields k)
    required_changes :=
      (expected_set.filter (fun k => actual_set.contains k)).filter
        (fun k => fieldRequired expected_fields k != fieldRequired actual_fields k) }

/-! ### Impact classification (impact_classifier.py) -/

/-- Python truthiness test `field_drift and field_drift["type_changes"]`:
`None` fails, a present drift record passes iff the list is non-empty. -/
def driftHasTypeChanges : Option FieldDrift → Bool
  | some fd => !fd.type_changes.isEmpty
  | none => false

/-- `field_drift and field_drift["required_changes"]`. -/
def driftHasRequiredChanges : Option FieldDrift → Bool
  | some fd => !fd.required_changes.isEmpty
  | none => false

/-- `field_drift and field_drift["added_fields"]`. -/
def driftHasAddedFields : Option FieldDrift → Bool
  | some fd => !fd.added_fields.isEmpty
  | none => false

/-- `classify_impact(decision_label, comparison_result, field_drift)` from
impact_classifier.py: the ordered if/elif ladder, first match wins. -/
def classify_impact (decision_label comparison_result : String)
    (field_drift : Option FieldDrift) : ImpactResult :=
  if decision_label = "FIELD_BREAKING_CHANGE" then
    { impact_tier := 1, drift_category := "BREAKING_SCHEMA_CHANGE"
      requires_review := true, blocks_deployment := true }
  else if comparison_result = "MAJOR_UPGRADE" then
    { impact_tier := 1, drift_category := "MAJOR_VERSION_BREAK"
      requires_review := true, blocks_deployment := true }
  else if driftHasTypeChanges field_drift then
    { impact_tier := 2, drift_category := "TYPE_CHANGE"
      requires_review := true, blocks_deployment := false }
  else if driftHasRequiredChanges field_drift then
    { impact_tier := 3, drift_category := "REQUIRED_FLAG_CHANGE"
      requires_review := true, blocks_deployment := false }
  else if driftHasAddedFields field_drift then
    { impact_tier := 4, drift_category := "ADDITIVE_CHANGE"
      requires_review := false, blocks_deployment := false }
  else
    { impact_tier := 5, drift_category := "NO_IMPACT"
      requires_review := false, blocks_deployment := false }

/-- `evaluate_cicd_gate(impact_tier)` from cicd_gate.py. -/
def evaluate_cicd_gate (impact_tier : Nat) : GateVerdict :=
  if impact_tier = 1 then
    { gate_status := "BLOCK", requires_manual_approval := true
      blocks_pipeline := true
      action_required := some "Schema Breaking Change – Deployment Blocked" }
  else if impact_tier = 2 then
    { gate_status := "REVIEW_REQUIRED", requires_manual_approval := true
      blocks_pipeline := false
      action_required := some "Type Change – Manual Architecture Review Required" }
  else if impact_tier = 3 then
    { gate_status := "WARNING", requires_manual_approval := true
      blocks_pipeline := false
      action_required := some "Required Flag Change – Review Recommended" }
  else if impact_tier = 4 then
    { gate_status := "AUTO_APPROVE", requires_manual_approval := false
      blocks_pipeline := false
      action_required := some "Additive Compatible Change – Auto Approved" }
  else
    { gate_status := "NO_ACTION", requires_manual_approval := false
      blocks_pipeline := false
      action_required := some "No Compatibility Impact" }

/-! ### The orchestrator's decision core (batch_pipeline.py, steps [9]-[12]) -/

/-- Step [9] Decision Classification (version-based) of batch_pipeline.py. -/
def classify_decision (is_allowed : Bool)
    (comparison_result compatibility_mode : String) : String :=
  if !is_allowed then "HARD_FAIL"
  else if comparison_result == "EXACT_MATCH" then "PASS"
  else if compatibility_mode == "override" then "SOFT_PASS_DRIFT"
  else "PASS_WITH_FORWARD_COMPAT"

/-- Step [9b]'s `breaking_changes` flag: a drift record is present
(`if field_drift:` — the four-key dict is always truthy) and one of the
removed/type/required lists is non-empty. -/
def has_breaking_changes : Option FieldDrift → Bool
  | some fd =>
    !fd.removed_fields.isEmpty || !fd.type_changes.isEmpty
      || !fd.required_changes.isEmpty
  | none => false

/-- Step [9b] Breaking Field Override: on breaking drift the label is
reset to FIELD_BREAKING_CHANGE and `is_allowed` forced to false. -/
def apply_breaking_override (decision_label : String) (is_allowed : Bool)
    (field_drift : Option FieldDrift) : String × Bool :=
  if has_breaking_changes field_drift then ("FIELD_BREAKING_CHANGE", false)
  else (decision_label, is_allowed)

/-- Step [10] Severity Classification: severity and `drift_detected` from
the final decision label. -/
def classify_severity (decision_label : String) : String × Bool :=
  if decision_label == "FIELD_BREAKING_CHANGE" || decision_label == "HARD_FAIL" then
    ("CRITICAL", true)
  else if decision_label == "SOFT_PASS_DRIFT" then ("WARNING", true)
  else if decision_label == "PASS_WITH_FORWARD_COMPAT" then ("INFO", true)
  else ("INFO", false)

/-- Step [12] Profile-Based Enforcement: the exit code the run terminates
with (`some code` via `terminate_pipeline`), or `none` when execution
continues to "PIPELINE EXECUTION END".  The profile is only consulted when
the decision is not allowed. -/
def profile_enforcement (is_allowed : Bool) (execution_profile : String) :
    Option Nat :=
  if !is_allowed then
    if execution_profile == "batch" then some 2
    else if execution_profile == "streaming" then none
    else some 2
  else none

/-- The governance fields of the record assembled in step [11], plus the
enforcement outcome of step [12]. -/
structure EvalOutcome where
  comparison_result : String
  allowed : Bool
  decision_label : String
  severity : String
  drift_detected : Bool
  impact : ImpactResult
  gate : GateVerdict
  exit_code : Option Nat
deriving DecidableEq

/-- Steps [9]-[12] of batch_pipeline.py once the comparison result, the
policy verdict and the drift record are in hand: decision classification,
breaking-field override, severity, impact, gate and profile enforcement,
assembled into the governance record's decision fields. -/
def outcome_core (comparison_result : String) (allowed0 : Bool)
    (compatibility_mode execution_profile : String)
    (field_drift : Option FieldDrift) : EvalOutcome :=
  let label0 := classify_decision allowed0 comparison_result compatibility_mode
  let labelAllowed := apply_breaking_override label0 allowed0 field_drift
  let sevDrift := classify_severity labelAllowed.1
  let impact := classify_impact labelAllowed.1 comparison_result field_drift
  let gate := evaluate_cicd_gate impact.impact_tier
  let exit_code := profile_enforcement labelAllowed.2 execution_profile
  { comparison_result := comparison_result
    allowed := labelAllowed.2
    decision_label := labelAllowed.1
    severity := sevDrift.1
    drift_detected := sevDrift.2
    impact := impact
    gate := gate
    exit_code := exit_code }

/-- The pure decision core of batch_pipeline.py, steps [6]-[12]: version
comparison, policy evaluation, drift detection against an optional
baseline, then `outcome_core`.  An uncaught `ValueError` from the
comparator or the policy engine is the `.error` case. -/
def run_pipeline (expected_version compatibility_mode execution_profile : String)
    (baseline_contract : Option Contract) (contract : Contract) :
    Except String EvalOutcome :=
  match compare_versions contract.version expected_version with
  | .error e => .error e
  | .ok comparison_result =>
    match evaluate_compatibility comparison_result compatibility_mode with
    | .error e => .error e
    | .ok allowed0 =>
      let field_drift : Option FieldDrift :=
        baseline_contract.map (fun b => compare_contract_fields b contract)
      .ok (outcome_core comparison_result allowed0 compatibility_mode
            execution_profile field_drift)

/-! ### Definitions taken from the spec's words, for refinement claims -/

/-- Follows the spec (§4.1): the comparison table on parsed components —
contract major greater yields MAJOR_UPGRADE, lesser MAJOR_DOWNGRADE,
regardless of minors; on equal majors the minors decide. -/
def spec_compare_table (con_major con_minor exp_major exp_minor : Int) : String :=
  if con_major > exp_major then "MAJOR_UPGRADE"
  else if con_major < exp_major then "MAJOR_DOWNGRADE"
  else if con_minor > exp_minor then "MINOR_UPGRADE"
  else if con_minor < exp_minor then "MINOR_DOWNGRADE"
  else "EQUAL"

/-- Follows the spec (§3, §4.1): the string splits into exactly two
components and both parse as non-negative integers. -/
def spec_version_wf (s : String) : Bool :=
  match (chunks s.toList).map pythonInt with
  | [some major, some minor] => decide (0 ≤ major) && decide (0 ≤ minor)
  | _ => false

/-! ## Helper lemmas -/

/-- A denied policy verdict classifies as HARD_FAIL in step [9]. -/
lemma classify_decision_false (cr m : String) :
    classify_decision false cr m = "HARD_FAIL" := rfl

/-- An allowed policy verdict classifies as one of the three passing
labels in step [9]. -/
lemma classify_decision_true (cr m : String) :
    classify_decision true cr m = "PASS" ∨
      classify_decision true cr m = "SOFT_PASS_DRIFT" ∨
      classify_decision true cr m = "PASS_WITH_FORWARD_COMPAT" := by
  by_cases h1 : cr = "EXACT_MATCH"
  · simp [classify_decision, h1]
  · by_cases h2 : m = "override" <;> simp [classify_decision, h1, h2]

/-- The step [9b] flag on a present drift record, as emptiness of the
three breaking lists. -/
lemma has_breaking_changes_some (d : FieldDrift) :
    has_breaking_changes (some d) = true ↔
      (d.removed_fields ≠ [] ∨ d.type_changes ≠ [] ∨ d.required_changes ≠ []) := by
  simp [has_breaking_changes, or_assoc]

/-- Inversion of a successful run: the comparison and policy steps
succeeded and the outcome is `outcome_core` of their results. -/
lemma run_pipeline_ok_inv (ev m pr : String) (b? : Option Contract)
    (c : Contract) (o : EvalOutcome)
    (h : run_pipeline ev m pr b? c = .ok o) :
    ∃ cr a0, compare_versions c.version ev = .ok cr ∧
      evaluate_compatibility cr m = .ok a0 ∧
      o = outcome_core cr a0 m pr
        (b?.map (fun b => compare_contract_fields b c)) := by
  unfold run_pipeline at h
  split at h
  · simp at h
  · split at h
    · simp at h
    · rename_i s1 cr hc s2 a0 ha
      simp at h
      exact ⟨cr, a0, hc, ha, h.symm⟩

/-! ## Claims -/

/-- C1: the claim says an evaluation with the policy evaluator allowing,
comparison EQUAL and no breaking-drift override is labelled PASS.  The
code disagrees: with both versions "2.0" and mode override the evaluator
allows and the comparison is EQUAL, yet step [9] tests the comparison
against "EXACT_MATCH" — a token the comparator never emits — so the label
falls through to SOFT_PASS_DRIFT, not PASS. -/
theorem C1_equal_allowed_run_is_soft_pass :
    run_pipeline "2.0" "override" "batch" none ⟨"2.0", []⟩ =
      .ok { comparison_result := "EQUAL", allowed := true,
            decision_label := "SOFT_PASS_DRIFT", severity := "WARNING",
            drift_detected := true,
            impact := ⟨5, "NO_IMPACT", false, false⟩,
            gate := ⟨"NO_ACTION", false, false, some "No Compatibility Impact"⟩,
            exit_code := none } := by decide

/-- C2: the claim says strict mode allows exactly EQUAL.  The code
disagrees on the EQUAL case: the comparator emits "EQUAL" for equal
versions, and the strict branch tests for "EXACT_MATCH", so strict denies
EQUAL (it denies the other four comparison values as the claim states). -/
theorem C2_strict_denies_equal :
    compare_versions "2.0" "2.0" = .ok "EQUAL" ∧
    evaluate_compatibility "EQUAL" "strict" = .ok false ∧
    evaluate_compatibility "MINOR_UPGRADE" "strict" = .ok false ∧
    evaluate_compatibility "MAJOR_UPGRADE" "strict" = .ok false ∧
    evaluate_compatibility "MINOR_DOWNGRADE" "strict" = .ok false ∧
    evaluate_compatibility "MAJOR_DOWNGRADE" "strict" = .ok false := by decide

/-- C3 (counterexample): the claimed modes backward_minor and hybrid are
not recognized — the evaluator raises for them instead of returning a
boolean — and strict does not follow the claimed §3 table on EQUAL. -/
theorem C3_five_modes_counterexample :
    evaluate_compatibility "EQUAL" "hybrid" =
      .error "Unknown compatibility mode: hybrid" ∧
    evaluate_compatibility "EQUAL" "backward_minor" =
      .error "Unknown compatibility mode: backward_minor" ∧
    evaluate_compatibility "EQUAL" "strict" = .ok false := by decide

/-- C3 (amended): the evaluator returns a boolean for exactly the three
recognized modes — strict, forward_minor, override — allowing precisely:
override always, strict on "EXACT_MATCH", forward_minor on "EXACT_MATCH"
or MINOR_UPGRADE; every other mode string (including backward_minor and
hybrid) raises an UnknownModeError, never defaulting to allow or deny. -/
theorem C3_amended_three_modes (c m : String) :
    ((m = "strict" ∨ m = "forward_minor" ∨ m = "override") →
      ∃ b, evaluate_compatibility c m = .ok b) ∧
    (m ≠ "strict" → m ≠ "forward_minor" → m ≠ "override" →
      evaluate_compatibility c m =
        .error ("Unknown compatibility mode: " ++ m)) ∧
    (evaluate_compatibility c m = .ok true ↔
      (m = "override" ∨ (m = "strict" ∧ c = "EXACT_MATCH") ∨
        (m = "forward_minor" ∧ (c = "EXACT_MATCH" ∨ c = "MINOR_UPGRADE")))) := by
  refine ⟨?_, ?_, ?_⟩
  · rintro (h | h | h) <;> subst h
    · exact ⟨c == "EXACT_MATCH", by simp [evaluate_compatibility]⟩
    · exact ⟨c == "EXACT_MATCH" || c == "MINOR_UPGRADE",
        by simp [evaluate_compatibility]⟩
    · exact ⟨true, by simp [evaluate_compatibility]⟩
  · intro h1 h2 h3
    simp [evaluate_compatibility, h1, h2, h3]
  · by_cases h1 : m = "strict"
    · subst h1; simp [evaluate_compatibility]
    · by_cases h2 : m = "forward_minor"
      · subst h2; simp [evaluate_compatibility]
      · by_cases h3 : m = "override"
        · subst h3; simp [evaluate_compatibility]
        · simp [evaluate_compatibility, h1, h2, h3]

/-- C3 (witness): forward_minor allows MINOR_UPGRADE; hybrid raises. -/
theorem C3_amended_three_modes_witness :
    evaluate_compatibility "MINOR_UPGRADE" "forward_minor" = .ok true ∧
    evaluate_compatibility "MINOR_UPGRADE" "hybrid" =
      .error "Unknown compatibility mode: hybrid" := by
  constructor
  · exact (C3_amended_three_modes "MINOR_UPGRADE" "forward_minor").2.2.mpr
      (Or.inr (Or.inr ⟨rfl, Or.inr rfl⟩))
  · exact (C3_amended_three_modes "MINOR_UPGRADE" "hybrid").2.1
      (by decide) (by decide) (by decide)

/-- C4: whenever a baseline contract is available and its drift against
the candidate has a non-empty removed_fields, type_changes or
required_changes list, the final decision label is FIELD_BREAKING_CHANGE
and allowed is false — for every expected version, mode (override
included) and profile; and drift whose three breaking lists are empty
(added fields only, or no drift) never yields that label. -/
theorem C4_breaking_override_dominates (ev m pr : String) (b c : Contract)
    (o : EvalOutcome) (h : run_pipeline ev m pr (some b) c = .ok o) :
    (((compare_contract_fields b c).removed_fields ≠ [] ∨
        (compare_contract_fields b c).type_changes ≠ [] ∨
        (compare_contract_fields b c).required_changes ≠ []) →
      o.decision_label = "FIELD_BREAKING_CHANGE" ∧ o.allowed = false) ∧
    ((compare_contract_fields b c).removed_fields = [] →
      (compare_contract_fields b c).type_changes = [] →
      (compare_contract_fields b c).required_changes = [] →
      o.decision_label ≠ "FIELD_BREAKING_CHANGE") := by
  obtain ⟨cr, a0, hc, ha, ho⟩ := run_pipeline_ok_inv ev m pr (some b) c o h
  subst ho
  constructor
  · intro hbrk
    have hb : has_breaking_changes (some (compare_contract_fields b c)) = true :=
      (has_breaking_changes_some _).mpr hbrk
    simp [outcome_core, apply_breaking_override, hb]
  · intro h1 h2 h3
    have hb : has_breaking_changes (some (compare_contract_fields b c)) = false := by
      simp [has_breaking_changes, h1, h2, h3]
    cases a0
    · simp [outcome_core, apply_breaking_override, hb, classify_decision_false]
    · rcases classify_decision_true cr m with hl | hl | hl <;>
        simp [outcome_core, apply_breaking_override, hb, hl]

/-- C4 (witness): baseline with field "email", candidate without it, mode
override — the removed field forces FIELD_BREAKING_CHANGE and denial. -/
theorem C4_breaking_override_witness :
    ("FIELD_BREAKING_CHANGE" : String) = "FIELD_BREAKING_CHANGE" ∧ false = false :=
  (C4_breaking_override_dominates "2.0" "override" "batch"
      ⟨"2.0", [("email", ⟨some "string", some true⟩)]⟩ ⟨"2.1", []⟩
      { comparison_result := "MINOR_UPGRADE", allowed := false,
        decision_label := "FIELD_BREAKING_CHANGE", severity := "CRITICAL",
        drift_detected := true,
        impact := ⟨1, "BREAKING_SCHEMA_CHANGE", true, true⟩,
        gate := ⟨"BLOCK", true, true,
          some "Schema Breaking Change – Deployment Blocked"⟩,
        exit_code := some 2 } (by decide)).1 (by decide)

/-- C10: in every governance record the orchestrator assembles, allowed
is false exactly when the final label is HARD_FAIL or
FIELD_BREAKING_CHANGE, and exactly when the severity is CRITICAL (so the
three passing labels always carry allowed = true). -/
theorem C10_allowed_iff_label_passing (ev m pr : String) (b? : Option Contract)
    (c : Contract) (o : EvalOutcome) (h : run_pipeline ev m pr b? c = .ok o) :
    (o.allowed = false ↔
      (o.decision_label = "HARD_FAIL" ∨
        o.decision_label = "FIELD_BREAKING_CHANGE")) ∧
    (o.allowed = false ↔ o.severity = "CRITICAL") := by
  obtain ⟨cr, a0, hc, ha, ho⟩ := run_pipeline_ok_inv ev m pr b? c o h
  subst ho
  cases hb : has_breaking_changes (b?.map (fun b => compare_contract_fields b c))
  · cases a0
    · simp [outcome_core, apply_breaking_override, hb, classify_decision_false,
        classify_severity]
    · rcases classify_decision_true cr m with hl | hl | hl <;>
        simp [outcome_core, apply_breaking_override, hb, hl, classify_severity]
  · simp [outcome_core, apply_breaking_override, hb, classify_severity]

/-- C10 (witness): equal versions under strict mode — the policy denies
(the strict branch never sees "EQUAL" as a match), the label is HARD_FAIL
and the severity CRITICAL. -/
theorem C10_allowed_iff_label_passing_witness :
    (false = false ↔
      (("HARD_FAIL" : String) = "HARD_FAIL" ∨
        ("HARD_FAIL" : String) = "FIELD_BREAKING_CHANGE")) ∧
    (false = false ↔ ("CRITICAL" : String) = "CRITICAL") :=
  C10_allowed_iff_label_passing "2.0" "strict" "batch" none ⟨"2.0", []⟩
    { comparison_result := "EQUAL", allowed := false,
      decision_label := "HARD_FAIL", severity := "CRITICAL",
      drift_detected := true, impact := ⟨5, "NO_IMPACT", false, false⟩,
      gate := ⟨"NO_ACTION", false, false, some "No Compatibility Impact"⟩,
      exit_code := some 2 } (by decide)

/-- C9: diffing any contract against itself yields all four drift sets
empty. -/
theorem C9_diff_self_empty (X : Contract) :
    compare_contract_fields X X = ⟨[], [], [], []⟩ := by
  simp [compare_contract_fields, List.filter_eq_nil_iff]

/-- C5 (counterexample): with expected "2.0", contract version "3.0",
strict mode and batch profile, a baseline whose field "email" the
candidate dropped makes the final label FIELD_BREAKING_CHANGE — not
HARD_FAIL as the claim states for all such inputs. -/
theorem C5_scenario_b_counterexample :
    (run_pipeline "2.0" "strict" "batch"
        (some ⟨"2.0", [("email", ⟨some "string", some true⟩)]⟩)
        ⟨"3.0", []⟩).map (fun o => o.decision_label) =
      .ok "FIELD_BREAKING_CHANGE" ∧
    (run_pipeline "2.0" "strict" "batch"
        (some ⟨"2.0", [("email", ⟨some "string", some true⟩)]⟩)
        ⟨"3.0", []⟩).map (fun o => o.decision_label) ≠ .ok "HARD_FAIL" := by
  decide

/-- C5 (amended): with expected "2.0", contract version "3.0", strict
mode and batch profile, the evaluation yields comparison MAJOR_UPGRADE,
allowed false, impact tier 1, gate BLOCK and exit code 2; the decision
label is HARD_FAIL when the (optional) baseline produces no breaking
drift, and FIELD_BREAKING_CHANGE when it does. -/
theorem C5_amended_scenario_b (b? : Option Contract) (c : Contract)
    (o : EvalOutcome) (hv : c.version = "3.0")
    (h : run_pipeline "2.0" "strict" "batch" b? c = .ok o) :
    o.comparison_result = "MAJOR_UPGRADE" ∧ o.allowed = false ∧
    o.impact.impact_tier = 1 ∧ o.gate.gate_status = "BLOCK" ∧
    o.exit_code = some 2 ∧
    (has_breaking_changes (b?.map (fun b => compare_contract_fields b c)) = false →
      o.decision_label = "HARD_FAIL") ∧
    (has_breaking_changes (b?.map (fun b => compare_contract_fields b c)) = true →
      o.decision_label = "FIELD_BREAKING_CHANGE") := by
  obtain ⟨cr, a0, hc, ha, ho⟩ := run_pipeline_ok_inv _ _ _ _ _ _ h
  rw [hv] at hc
  have hcmp : compare_versions "3.0" "2.0" = Except.ok "MAJOR_UPGRADE" := by decide
  rw [hcmp] at hc
  injection hc with hcr
  subst hcr
  have heval : evaluate_compatibility "MAJOR_UPGRADE" "strict" = Except.ok false := by
    decide
  rw [heval] at ha
  injection ha with ha0
  subst ha0
  subst ho
  cases hb : has_breaking_changes (b?.map (fun b => compare_contract_fields b c)) <;>
    simp [outcome_core, apply_breaking_override, hb, classify_decision_false,
      classify_impact, evaluate_cicd_gate, profile_enforcement]

/-- C5 (witness): no baseline — the run is a MAJOR_UPGRADE HARD_FAIL with
tier 1, gate BLOCK and exit code 2. -/
theorem C5_amended_scenario_b_witness :
    ("MAJOR_UPGRADE" : String) = "MAJOR_UPGRADE" ∧ false = false ∧
    (1 : Nat) = 1 ∧ ("BLOCK" : String) = "BLOCK" ∧
    (some 2 : Option Nat) = some 2 ∧
    (false = false → ("HARD_FAIL" : String) = "HARD_FAIL") ∧
    (false = true → ("HARD_FAIL" : String) = "FIELD_BREAKING_CHANGE") :=
  C5_amended_scenario_b none ⟨"3.0", []⟩
    { comparison_result := "MAJOR_UPGRADE", allowed := false,
      decision_label := "HARD_FAIL", severity := "CRITICAL",
      drift_detected := true,
      impact := ⟨1, "MAJOR_VERSION_BREAK", true, true⟩,
      gate := ⟨"BLOCK", true, true,
        some "Schema Breaking Change – Deployment Blocked"⟩,
      exit_code := some 2 } rfl (by decide)

/-- C6 (counterexample): "-1.2" does not consist of two non-negative
integer components, yet the comparator does not raise on it — Python
`int` accepts the sign, so the code returns MAJOR_DOWNGRADE. -/
theorem C6_nonneg_counterexample :
    spec_version_wf "-1.2" = false ∧
    compare_versions "-1.2" "0.0" = .ok "MAJOR_DOWNGRADE" := by decide

/-- A parse failure on either argument makes the comparator raise. -/
lemma compare_versions_parse_none (cv ev : String)
    (h : parseVersion cv = none ∨ parseVersion ev = none) :
    compare_versions cv ev = .error "Invalid version format. Expected MAJOR.MINOR" := by
  unfold compare_versions
  rcases h with h | h
  · rw [h]
    rcases parseVersion ev with _ | ⟨em, ei⟩ <;> rfl
  · rw [h]

/-- With both arguments parsed, the comparator is the major-then-minor
if-ladder on the components. -/
lemma compare_versions_parse_some (cv ev : String) (cm ci em ei : Int)
    (h1 : parseVersion cv = some (cm, ci)) (h2 : parseVersion ev = some (em, ei)) :
    compare_versions cv ev =
      (if cm ≠ em then
        if cm > em then .ok "MAJOR_UPGRADE" else .ok "MAJOR_DOWNGRADE"
      else if ci > ei then .ok "MINOR_UPGRADE"
      else if ci < ei then .ok "MINOR_DOWNGRADE"
      else .ok "EQUAL") := by
  unfold compare_versions
  rw [h1, h2]

/-- A string whose dot-split does not have exactly two components never
parses, whatever the components hold. -/
lemma parseVersion_none_of_shape (s : String)
    (h : (chunks s.toList).length ≠ 2) : parseVersion s = none := by
  unfold parseVersion
  have hlen : ((chunks s.toList).map pythonInt).length ≠ 2 := by
    simpa using h
  generalize ((chunks s.toList).map pythonInt) = l at hlen ⊢
  rcases l with _ | ⟨a, _ | ⟨b, _ | ⟨c, t⟩⟩⟩
  · rfl
  · cases a <;> rfl
  · exact absurd rfl hlen
  · cases a <;> cases b <;> rfl

/-- C6 (amended): the comparator raises exactly when either string fails
to supply two Python-integer components: (1) a dot-split into anything
but exactly two components always raises, whatever the components hold;
(2) whenever both strings parse — `int()` strips surrounding whitespace
and accepts an optional sign and underscore grouping, so in particular
negative components are compared rather than rejected — the result is
the spec's majors-first table on the parsed pairs; (3) over ASCII
strings, on which `pythonInt` coincides with Python's `int()` exactly
(only non-ASCII decimal digits lie outside the model, see `pythonInt`),
the comparison succeeds if and only if both strings parse. -/
theorem C6_amended_parse_and_order (cv ev : String) :
    ((chunks cv.toList).length ≠ 2 ∨ (chunks ev.toList).length ≠ 2 →
      compare_versions cv ev =
        .error "Invalid version format. Expected MAJOR.MINOR") ∧
    (∀ cm ci em ei : Int, parseVersion cv = some (cm, ci) →
      parseVersion ev = some (em, ei) →
      compare_versions cv ev = .ok (spec_compare_table cm ci em ei)) ∧
    (cv.toList.all asciiChar = true → ev.toList.all asciiChar = true →
      ((∃ r, compare_versions cv ev = .ok r) ↔
        ((parseVersion cv).isSome ∧ (parseVersion ev).isSome))) := by
  refine ⟨?_, ?_, ?_⟩
  · intro h
    apply compare_versions_parse_none
    rcases h with h | h
    · exact Or.inl (parseVersion_none_of_shape cv h)
    · exact Or.inr (parseVersion_none_of_shape ev h)
  · intro cm ci em ei h1 h2
    rw [compare_versions_parse_some cv ev cm ci em ei h1 h2]
    unfold spec_compare_table
    split_ifs <;> first | rfl | (exfalso; omega)
  · intro _ _
    constructor
    · rintro ⟨r, hr⟩
      by_contra hne
      rw [not_and_or] at hne
      have hnone : parseVersion cv = none ∨ parseVersion ev = none := by
        rcases hne with hx | hx
        · exact Or.inl (Option.not_isSome_iff_eq_none.mp hx)
        · exact Or.inr (Option.not_isSome_iff_eq_none.mp hx)
      rw [compare_versions_parse_none cv ev hnone] at hr
      cases hr
    · rintro ⟨h1, h2⟩
      obtain ⟨⟨cm, ci⟩, hq⟩ := Option.isSome_iff_exists.mp h1
      obtain ⟨⟨em, ei⟩, hp⟩ := Option.isSome_iff_exists.mp h2
      rw [compare_versions_parse_some cv ev cm ci em ei hq hp]
      split_ifs <;> exact ⟨_, rfl⟩

/-- C6 (witness): "2.1" against expected "2.0" compares as a minor
upgrade, and " 1_0.2" — leading whitespace, underscore grouping — parses
to (10, 2) and compares as a major upgrade, as Python does. -/
theorem C6_amended_parse_and_order_witness :
    compare_versions "2.1" "2.0" = .ok "MINOR_UPGRADE" ∧
    compare_versions " 1_0.2" "2.0" = .ok "MAJOR_UPGRADE" := by
  constructor
  · exact (C6_amended_parse_and_order "2.1" "2.0").2.1 2 1 2 0
      (by decide) (by decide)
  · exact (C6_amended_parse_and_order " 1_0.2" "2.0").2.1 10 2 2 0
      (by decide) (by decide)

/-- C7: the impact classifier is the six-rule ordered table, first match
wins: FIELD_BREAKING_CHANGE → tier 1 BREAKING_SCHEMA_CHANGE (regardless
of the comparison); else MAJOR_UPGRADE → tier 1 MAJOR_VERSION_BREAK;
else, drift present, non-empty type_changes → tier 2, non-empty
required_changes → tier 3, non-empty added_fields → tier 4 (no review, no
block); otherwise — drift absent included — tier 5 NO_IMPACT. -/
theorem C7_impact_table (l cr : String) (d : Option FieldDrift) :
    (l = "FIELD_BREAKING_CHANGE" →
      classify_impact l cr d = ⟨1, "BREAKING_SCHEMA_CHANGE", true, true⟩) ∧
    (l ≠ "FIELD_BREAKING_CHANGE" → cr = "MAJOR_UPGRADE" →
      classify_impact l cr d = ⟨1, "MAJOR_VERSION_BREAK", true, true⟩) ∧
    (∀ fd, l ≠ "FIELD_BREAKING_CHANGE" → cr ≠ "MAJOR_UPGRADE" → d = some fd →
      fd.type_changes ≠ [] →
      classify_impact l cr d = ⟨2, "TYPE_CHANGE", true, false⟩) ∧
    (∀ fd, l ≠ "FIELD_BREAKING_CHANGE" → cr ≠ "MAJOR_UPGRADE" → d = some fd →
      fd.type_changes = [] → fd.required_changes ≠ [] →
      classify_impact l cr d = ⟨3, "REQUIRED_FLAG_CHANGE", true, false⟩) ∧
    (∀ fd, l ≠ "FIELD_BREAKING_CHANGE" → cr ≠ "MAJOR_UPGRADE" → d = some fd →
      fd.type_changes = [] → fd.required_changes = [] → fd.added_fields ≠ [] →
      classify_impact l cr d = ⟨4, "ADDITIVE_CHANGE", false, false⟩) ∧
    (l ≠ "FIELD_BREAKING_CHANGE" → cr ≠ "MAJOR_UPGRADE" →
      (d = none ∨ ∃ fd, d = some fd ∧ fd.type_changes = [] ∧
        fd.required_changes = [] ∧ fd.added_fields = []) →
      classify_impact l cr d = ⟨5, "NO_IMPACT", false, false⟩) := by
  refine ⟨?_, ?_, ?_, ?_, ?_, ?_⟩
  · intro h
    simp [classify_impact, h]
  · intro h1 h2
    simp [classify_impact, h1, h2]
  · intro fd h1 h2 hd ht
    subst hd
    simp [classify_impact, h1, h2, driftHasTypeChanges, ht]
  · intro fd h1 h2 hd ht hr
    subst hd
    simp [classify_impact, h1, h2, driftHasTypeChanges, driftHasRequiredChanges,
      ht, hr]
  · intro fd h1 h2 hd ht hr hadd
    subst hd
    simp [classify_impact, h1, h2, driftHasTypeChanges, driftHasRequiredChanges,
      driftHasAddedFields, ht, hr, hadd]
  · intro h1 h2 hd
    rcases hd with hd | ⟨fd, hd, ht, hr, hadd⟩
    · subst hd
      simp [classify_impact, h1, h2, driftHasTypeChanges,
        driftHasRequiredChanges, driftHasAddedFields]
    · subst hd
      simp [classify_impact, h1, h2, driftHasTypeChanges,
        driftHasRequiredChanges, driftHasAddedFields, ht, hr, hadd]

/-- C7 (witness): a FIELD_BREAKING_CHANGE label is tier 1
BREAKING_SCHEMA_CHANGE even with comparison EQUAL and no drift record. -/
theorem C7_impact_table_witness :
    classify_impact "FIELD_BREAKING_CHANGE" "EQUAL" none =
      ⟨1, "BREAKING_SCHEMA_CHANGE", true, true⟩ :=
  (C7_impact_table "FIELD_BREAKING_CHANGE" "EQUAL" none).1 rfl

/-- C8 (counterexample): an allowed run with the unrecognized profile
"mystery" does not terminate at all — the profile is only consulted when
the decision is not allowed, so no exit code 2 is produced. -/
theorem C8_unknown_profile_counterexample :
    (run_pipeline "2.0" "override" "mystery" none ⟨"2.0", []⟩).map
      (fun o => (o.allowed, o.exit_code)) = .ok (true, none) := by decide

/-- C8 (amended): a profile that is neither "batch" nor "streaming"
terminates the run with exit code 2 only when the decision is not
allowed; when it is allowed the profile is never validated and the run
completes without termination. -/
theorem C8_amended_unknown_profile (ev m pr : String) (b? : Option Contract)
    (c : Contract) (o : EvalOutcome) (h : run_pipeline ev m pr b? c = .ok o)
    (h1 : pr ≠ "batch") (h2 : pr ≠ "streaming") :
    (o.allowed = false → o.exit_code = some 2) ∧
    (o.allowed = true → o.exit_code = none) := by
  obtain ⟨cr, a0, hc, ha, ho⟩ := run_pipeline_ok_inv ev m pr b? c o h
  subst ho
  cases hx : (apply_breaking_override (classify_decision a0 cr m) a0
      (b?.map (fun b => compare_contract_fields b c))).2 <;>
    simp [outcome_core, hx, profile_enforcement, h1, h2]

/-- C8 (witness): strict mode on equal versions denies, and the unknown
profile "mystery" then terminates with exit code 2. -/
theorem C8_amended_unknown_profile_witness :
    (false = false → (some 2 : Option Nat) = some 2) ∧
    (false = true → (some 2 : Option Nat) = none) :=
  C8_amended_unknown_profile "2.0" "strict" "mystery" none ⟨"2.0", []⟩
    { comparison_result := "EQUAL", allowed := false,
      decision_label := "HARD_FAIL", severity := "CRITICAL",
      drift_detected := true, impact := ⟨5, "NO_IMPACT", false, false⟩,
      gate := ⟨"NO_ACTION", false, false, some "No Compatibility Impact"⟩,
      exit_code := some 2 } (by decide) (by decide) (by decide)

end DataGov
